import Mathlib

/-!
# Verification of the Task MCP App server (`src/server.ts`)

Shallow embedding of the repository's single source file. The file has two
parts: the MCP server (Task Client + Tool Layer + Resource Layer) and the
UI controller script bundled into the served HTML resource.

Network effects are modelled by passing the HTTP response(s) a call would
observe as explicit arguments; JavaScript `throw`/`catch` becomes
`Except String`; JSON values are a small `Json` inductive, with
`JSON.stringify` omitting fields whose value is `undefined` (modelled by
`Option` being `none`).
-/

namespace TaskApp

/-- A JSON value, as produced by `JSON.stringify` on the wire. -/
inductive Json where
  | null : Json
  | num (n : Int) : Json
  | str (s : String) : Json
  | arr (elems : List Json) : Json
  | obj (fields : List (String × Json)) : Json

/-- Field lookup in a JSON object (first occurrence of the key). -/
def Json.lookupField : Json → String → Option Json
  | Json.obj fields, key => fields.lookup key
  | _, _ => none

/-- Whether a JSON value is an object carrying the given field. -/
def Json.hasField (j : Json) (key : String) : Bool :=
  (j.lookupField key).isSome

/-- The `Task` interface of the server part: `Priority` and `Status` are
optional on the wire (`Priority?: number`, `Status?: number`). -/
structure Task where
  Id : Int
  Title : String
  Description : String
  Priority : Option Int
  DueDate : String
  Status : Option Int
deriving Repr, DecidableEq

/-- `Omit<Task, "Id">`: the shape passed to `createTask`. -/
structure NewTask where
  Title : String
  Description : String
  Priority : Option Int
  DueDate : String
  Status : Option Int
deriving Repr, DecidableEq

/-- JSON encoding of a `NewTask` object literal: `JSON.stringify` drops
fields whose value is `undefined`, i.e. `none`. -/
def newTaskToJson (t : NewTask) : Json :=
  Json.obj
    ([("Title", Json.str t.Title), ("Description", Json.str t.Description)]
      ++ (match t.Priority with
          | some p => [("Priority", Json.num p)]
          | none => [])
      ++ [("DueDate", Json.str t.DueDate)]
      ++ (match t.Status with
          | some st => [("Status", Json.num st)]
          | none => []))

/-- JSON encoding of a `Task` object, fields in interface order, `undefined`
fields omitted. -/
def taskToJson (t : Task) : Json :=
  Json.obj
    ([("Id", Json.num t.Id), ("Title", Json.str t.Title),
      ("Description", Json.str t.Description)]
      ++ (match t.Priority with
          | some p => [("Priority", Json.num p)]
          | none => [])
      ++ [("DueDate", Json.str t.DueDate)]
      ++ (match t.Status with
          | some st => [("Status", Json.num st)]
          | none => []))

/-- An HTTP response as observed by the Task Client: `ok`, `status`,
`statusText`, and the outcome of `res.text()` (`none` models the text read
rejecting, which the code catches and turns into `""`). -/
structure HttpResponse where
  ok : Bool
  status : Nat
  statusText : String
  textBody : Option String
deriving Repr, DecidableEq

/-- `await res.text().catch(() => "")`: best-effort error body. -/
def errorDetail (r : HttpResponse) : String :=
  r.textBody.getD ""

/-- The error message template shared by `fetchTasks` and `createTask`:
`` `${endpoint} failed: ${res.status} ${res.statusText}${errorDetail ? ` - ${errorDetail}` : ""}` ``
(an empty string is falsy in JavaScript, so the suffix is appended exactly
when the detail is non-empty). -/
def failMsg (endpoint : String) (r : HttpResponse) : String :=
  endpoint ++ " failed: " ++ toString r.status ++ " " ++ r.statusText
    ++ (if errorDetail r = "" then "" else " - " ++ errorDetail r)

/-- Response of the `GetTasks` endpoint: the HTTP envelope plus the parsed
JSON array (the code casts `await res.json()` to `Task[]` unchecked). -/
structure GetTasksResponse extends HttpResponse where
  jsonBody : List Task
deriving Repr, DecidableEq

/-- Response of the `CreateTask` endpoint: HTTP envelope plus the parsed
JSON `Task` object. -/
structure CreateTaskResponse extends HttpResponse where
  jsonBody : Task
deriving Repr, DecidableEq

/-- `fetchTasks`: on a non-ok response, throw the `GetTasks failed: ...`
message; on success, map the array filling `Priority`/`Status` defaults
(`task.Priority ?? 0`, `task.Status ?? 0`). The response the `fetch` call
observes is the explicit argument. -/
def fetchTasks (res : GetTasksResponse) : Except String (List Task) :=
  if res.ok then
    Except.ok (res.jsonBody.map fun task =>
      { task with
        Priority := some (task.Priority.getD 0)
        Status := some (task.Status.getD 0) })
  else
    Except.error (failMsg "GetTasks" res.toHttpResponse)

/-- The request body `createTask` sends: `JSON.stringify({ Task: task })`,
the task wrapped under a `"Task"` key. -/
def createTaskBody (task : NewTask) : Json :=
  Json.obj [("Task", newTaskToJson task)]

/-- `createTask`: POSTs `createTaskBody task`; on a non-ok response throws
the `CreateTask failed: ...` message; on success returns the service's JSON
response verbatim (no default filling). -/
def createTask (task : NewTask) (res : CreateTaskResponse) :
    Except String Task :=
  if res.ok then
    Except.ok res.jsonBody
  else
    Except.error (failMsg "CreateTask" res.toHttpResponse)

/-- The structured payload both tools return: `{ tasks, error }` with
`error` either a string or `null` (`none`). Both fields are always present
in the object literal. -/
structure StructuredContent where
  tasks : List Task
  error : Option String
deriving Repr, DecidableEq

/-- JSON encoding of the structured payload as serialised to the host. -/
def structuredContentJson (sc : StructuredContent) : Json :=
  Json.obj
    [("tasks", Json.arr (sc.tasks.map taskToJson)),
     ("error", match sc.error with
       | none => Json.null
       | some e => Json.str e)]

/-- One `{ type: "text", text }` content item. -/
structure ContentItem where
  type : String
  text : String
deriving Repr, DecidableEq

/-- The `CallToolResult` shape the handlers construct. -/
structure CallToolResult where
  content : List ContentItem
  structuredContent : StructuredContent
deriving Repr, DecidableEq

/-- The success message of `list-tasks`:
`` `${tasks.length} 件のタスクを UI に表示しました。` ``. -/
def countMessage (n : Nat) : String :=
  toString n ++ " 件のタスクを UI に表示しました。"

/-- The catch-branch result shared verbatim by both handlers:
`{ content: [{type:"text", text:`エラー: ${msg}`}], structuredContent: { tasks: [], error: msg } }`. -/
def toolErrorResult (msg : String) : CallToolResult :=
  { content := [⟨"text", "エラー: " ++ msg⟩]
    structuredContent := { tasks := [], error := some msg } }

/-- The `list-tasks` tool handler: try `fetchTasks`; on success return the
tasks with a count message and `error: null`; on any thrown error return
`toolErrorResult`. -/
def listTasksHandler (getRes : GetTasksResponse) : CallToolResult :=
  match fetchTasks getRes with
  | Except.ok tasks =>
    { content := [⟨"text", countMessage tasks.length⟩]
      structuredContent := { tasks := tasks, error := none } }
  | Except.error msg => toolErrorResult msg

/-- The input fields of the `add-task` tool. -/
structure AddTaskInput where
  Title : String
  Description : String
  DueDate : String
deriving Repr, DecidableEq

/-- The task the `add-task` handler constructs and passes to `createTask`:
`{ Title, Description, Priority: 1, DueDate, Status: 0 }`. -/
def newTaskOf (inp : AddTaskInput) : NewTask :=
  { Title := inp.Title
    Description := inp.Description
    Priority := some 1
    DueDate := inp.DueDate
    Status := some 0 }

/-- The `add-task` tool handler: `createTask` the constructed task, then
`fetchTasks`; on success return the refetched list with a confirmation
message and `error: null`; if either call throws, return `toolErrorResult`.
The two responses the two network calls observe are explicit arguments. -/
def addTaskHandler (inp : AddTaskInput) (createRes : CreateTaskResponse)
    (getRes : GetTasksResponse) : CallToolResult :=
  match createTask (newTaskOf inp) createRes with
  | Except.error msg => toolErrorResult msg
  | Except.ok _ =>
    match fetchTasks getRes with
    | Except.error msg => toolErrorResult msg
    | Except.ok tasks =>
      { content := [⟨"text", "タスク \"" ++ inp.Title ++ "\" を追加しました。"⟩]
        structuredContent := { tasks := tasks, error := none } }

/-- `pat` occurs as a contiguous substring of `s`. -/
def strContains (s pat : String) : Prop :=
  ∃ a b, s = a ++ pat ++ b

namespace UI

/-- The UI script's `Task` interface: `Priority` and `Status` required. -/
structure Task where
  Id : Int
  Title : String
  Description : String
  Priority : Int
  DueDate : String
  Status : Int
deriving Repr, DecidableEq

/-- The UI script's `TaskResult`: `tasks: Task[]`, `error: string | null`.
At runtime the cast `result.structuredContent as unknown as TaskResult` is
unchecked, so `tasks` may also be absent; `none` models absent for both
fields (`error: null` and `error` absent are both falsy and behave alike
in `handleToolResult`). -/
structure TaskResult where
  tasks : Option (List Task)
  error : Option String
deriving Repr, DecidableEq

/-- The tool result as the UI receives it: the optional `isError` flag and
the optional `structuredContent` payload. -/
structure ToolResult where
  isError : Bool
  structuredContent : Option TaskResult
deriving Repr, DecidableEq

/-- The DOM and form state the UI script reads and writes. The content of
the task-list element is modelled by the task sequence it was last rendered
from (the markup is a pure function of that sequence), `countEl.textContent`
by `countText`, and the status banner by its text and its
`style.display` visibility flag. -/
structure State where
  renderedTasks : List Task
  countText : String
  statusText : String
  statusVisible : Bool
  titleValue : String
  descValue : String
  dateValue : String
deriving Repr, DecidableEq

/-- `showStatus`: set the status text and make the banner visible (the
2-second auto-hide timer is real time and not modelled). -/
def showStatus (s : State) (message : String) : State :=
  { s with statusText := message, statusVisible := true }

/-- `renderTasks`: set the count text to `` `${tasks.length} 件` `` and
replace the task-list content with the rendering of `tasks` (an empty list
renders the placeholder message; either way the previous content is fully
replaced). -/
def renderTasks (s : State) (tasks : List Task) : State :=
  { s with
    countText := toString tasks.length ++ " 件"
    renderedTasks := tasks }

/-- JavaScript truthiness of the `error` field: `undefined`/`null` and the
empty string are falsy, any other string is truthy. -/
def errTruthy : Option String → Bool
  | none => false
  | some e => decide (e ≠ "")

/-- `handleToolResult`: if `result.isError`, show a generic error status;
otherwise if `data?.error` is truthy, show it as a status; otherwise if
`data?.tasks` is present, render the list and hide the status banner. -/
def handleToolResult (s : State) (result : ToolResult) : State :=
  if result.isError then
    showStatus s "エラーが発生しました"
  else
    match result.structuredContent with
    | none => s
    | some data =>
      if errTruthy data.error then
        showStatus s ("エラー: " ++ data.error.getD "")
      else
        match data.tasks with
        | some tasks => { renderTasks s tasks with statusVisible := false }
        | none => s

/-- The outcome of `app.callServerTool`: either a resolved result, or a
rejection of the callback channel itself. -/
inductive CallOutcome where
  | success (result : ToolResult)
  | failure
deriving Repr, DecidableEq

/-- JavaScript `String.prototype.trim`: strip leading and trailing
whitespace (modelled on the character list). -/
def jsTrim (s : String) : String :=
  String.mk
    (((s.data.dropWhile Char.isWhitespace).reverse.dropWhile
        Char.isWhitespace).reverse)

/-- `addTask`: trim the title and return immediately when it is empty;
otherwise compute the due date (`dateInput.value` if non-empty, converted
to ISO by the browser Date API `isoOf`, else the current instant `now`),
clear the three inputs, show a transient submitting status, invoke the
`add-task` tool, and either feed the result through `handleToolResult`
followed by a success status, or show a failure status when the callback
itself rejects. Returns the new state and the tool invocation made, if
any. -/
def addTask (isoOf : String → String) (now : String)
    (call : AddTaskInput → CallOutcome) (s : State) :
    State × Option AddTaskInput :=
  let Title := jsTrim s.titleValue
  if Title = "" then (s, none)
  else
    let Description := jsTrim s.descValue
    let DueDate := if s.dateValue = "" then now else isoOf s.dateValue
    let inp : AddTaskInput := ⟨Title, Description, DueDate⟩
    let s1 := { s with titleValue := "", descValue := "", dateValue := "" }
    let s2 := showStatus s1 "追加中..."
    match call inp with
    | CallOutcome.success result =>
      (showStatus (handleToolResult s2 result) "追加しました！", some inp)
    | CallOutcome.failure =>
      (showStatus s2 "追加に失敗しました", some inp)

end UI

/-! ## Theorems about the claims -/

/-- Claim C1: the `list-tasks` and `add-task` handlers never throw — a Task
Client failure is converted into a well-formed result whose structured
content is `{tasks: [], error: msg}` — and in every case the structured
content carries a `tasks` field and an `error` field that is a string or
null. (In the embedding the handlers are total functions; the try/catch
shape is the two error branches.) -/
theorem handlers_total_and_wellformed
    (getRes getRes2 : GetTasksResponse) (inp : AddTaskInput)
    (createRes : CreateTaskResponse) (msg msg2 : String)
    (h1 : fetchTasks getRes = Except.error msg)
    (h2 : createTask (newTaskOf inp) createRes = Except.error msg2) :
    (listTasksHandler getRes).structuredContent
      = { tasks := [], error := some msg } ∧
    (addTaskHandler inp createRes getRes2).structuredContent
      = { tasks := [], error := some msg2 } ∧
    (∀ r : GetTasksResponse,
      (structuredContentJson (listTasksHandler r).structuredContent).hasField
        "tasks" = true ∧
      (structuredContentJson (listTasksHandler r).structuredContent).hasField
        "error" = true ∧
      ((structuredContentJson
          (listTasksHandler r).structuredContent).lookupField "error"
            = some Json.null ∨
        ∃ e, (structuredContentJson
          (listTasksHandler r).structuredContent).lookupField "error"
            = some (Json.str e))) ∧
    (∀ (i : AddTaskInput) (c : CreateTaskResponse) (g : GetTasksResponse),
      (structuredContentJson (addTaskHandler i c g).structuredContent).hasField
        "tasks" = true ∧
      (structuredContentJson (addTaskHandler i c g).structuredContent).hasField
        "error" = true ∧
      ((structuredContentJson
          (addTaskHandler i c g).structuredContent).lookupField "error"
            = some Json.null ∨
        ∃ e, (structuredContentJson
          (addTaskHandler i c g).structuredContent).lookupField "error"
            = some (Json.str e))) := by
  refine ⟨?_, ?_, ?_, ?_⟩
  · simp [listTasksHandler, h1, toolErrorResult]
  · simp [addTaskHandler, h2, toolErrorResult]
  · intro r
    refine ⟨?_, ?_, ?_⟩
    · simp [structuredContentJson, Json.hasField, Json.lookupField]
    · simp [structuredContentJson, Json.hasField, Json.lookupField]
    · cases he : (listTasksHandler r).structuredContent.error with
      | none =>
        left
        simp [structuredContentJson, Json.lookupField, List.lookup, he]
      | some e =>
        right
        exact ⟨e, by simp [structuredContentJson, Json.lookupField, List.lookup, he]⟩
  · intro i c g
    refine ⟨?_, ?_, ?_⟩
    · simp [structuredContentJson, Json.hasField, Json.lookupField]
    · simp [structuredContentJson, Json.hasField, Json.lookupField]
    · cases he : (addTaskHandler i c g).structuredContent.error with
      | none =>
        left
        simp [structuredContentJson, Json.lookupField, List.lookup, he]
      | some e =>
        right
        exact ⟨e, by simp [structuredContentJson, Json.lookupField, List.lookup, he]⟩

/-- Witness for C1 at a concrete failing remote: a 500 on `GetTasks` and a
400 on `CreateTask`. -/
theorem handlers_total_and_wellformed_witness :
    (listTasksHandler ⟨⟨false, 500, "Internal Server Error", some "db down"⟩, []⟩).structuredContent
      = { tasks := [],
          error := some "GetTasks failed: 500 Internal Server Error - db down" } :=
  (handlers_total_and_wellformed
    ⟨⟨false, 500, "Internal Server Error", some "db down"⟩, []⟩
    ⟨⟨true, 200, "OK", none⟩, []⟩
    ⟨"Test", "", "2024-02-02T00:00:00Z"⟩
    ⟨⟨false, 400, "Bad Request", none⟩, ⟨0, "", "", none, "", none⟩⟩
    "GetTasks failed: 500 Internal Server Error - db down"
    "CreateTask failed: 400 Bad Request"
    (by rfl) (by rfl)).1

/-- Claim C2: on every successful `fetchTasks`, each returned Task has
`Priority` and `Status` populated; when the wire element lacked the field,
the returned value is `0`. -/
theorem fetchTasks_fills_defaults (res : GetTasksResponse)
    (h : res.ok = true) :
    ∃ tasks, fetchTasks res = Except.ok tasks ∧
      (∀ t ∈ tasks, t.Priority.isSome = true ∧ t.Status.isSome = true) ∧
      ∀ (i : Nat) (hi : i < res.jsonBody.length),
        ∃ hi2 : i < tasks.length,
          ((res.jsonBody.get ⟨i, hi⟩).Priority = none →
            (tasks.get ⟨i, hi2⟩).Priority = some 0) ∧
          ((res.jsonBody.get ⟨i, hi⟩).Status = none →
            (tasks.get ⟨i, hi2⟩).Status = some 0) := by
  have hok : fetchTasks res = Except.ok (res.jsonBody.map fun task =>
      { task with
        Priority := some (task.Priority.getD 0)
        Status := some (task.Status.getD 0) }) := by
    simp [fetchTasks, h]
  refine ⟨_, hok, ?_, ?_⟩
  · intro t ht
    rcases List.mem_map.mp ht with ⟨w, _, rfl⟩
    exact ⟨rfl, rfl⟩
  · intro i hi
    refine ⟨by simpa using hi, ?_, ?_⟩
    · intro hp
      simp only [List.get_eq_getElem] at hp
      simp [List.getElem_map, hp]
    · intro hs
      simp only [List.get_eq_getElem] at hs
      simp [List.getElem_map, hs]

/-- Witness for C2: the "Buy milk" wire element with no `Priority`/`Status`
comes back with both set to `0`. -/
theorem fetchTasks_fills_defaults_witness :
    ∃ tasks,
      fetchTasks ⟨⟨true, 200, "OK", none⟩,
        [⟨1, "Buy milk", "", none, "2024-01-01T00:00:00Z", none⟩]⟩
        = Except.ok tasks ∧
      (∀ t ∈ tasks, t.Priority.isSome = true ∧ t.Status.isSome = true) ∧
      ∀ (i : Nat) (hi : i < (([⟨1, "Buy milk", "", none,
          "2024-01-01T00:00:00Z", none⟩] : List Task)).length),
        ∃ hi2 : i < tasks.length,
          ((([⟨1, "Buy milk", "", none, "2024-01-01T00:00:00Z", none⟩] :
              List Task).get ⟨i, hi⟩).Priority = none →
            (tasks.get ⟨i, hi2⟩).Priority = some 0) ∧
          ((([⟨1, "Buy milk", "", none, "2024-01-01T00:00:00Z", none⟩] :
              List Task).get ⟨i, hi⟩).Status = none →
            (tasks.get ⟨i, hi2⟩).Status = some 0) :=
  fetchTasks_fills_defaults
    ⟨⟨true, 200, "OK", none⟩,
      [⟨1, "Buy milk", "", none, "2024-01-01T00:00:00Z", none⟩]⟩ rfl

/-- Claim C3: on every non-2xx response, `fetchTasks` and `createTask` fail
with a message containing the status code and status text; a non-empty
error body is appended; a failed body read (`textBody = none`) does not
mask the primary error — the message still carries the status line. -/
theorem client_error_carries_status (getRes : GetTasksResponse)
    (createRes : CreateTaskResponse) (task : NewTask)
    (hg : getRes.ok = false) (hc : createRes.ok = false) :
    fetchTasks getRes
      = Except.error (failMsg "GetTasks" getRes.toHttpResponse) ∧
    createTask task createRes
      = Except.error (failMsg "CreateTask" createRes.toHttpResponse) ∧
    (∀ (e : String) (r : HttpResponse),
      strContains (failMsg e r) (toString r.status) ∧
      strContains (failMsg e r) r.statusText) ∧
    (∀ (e : String) (r : HttpResponse), errorDetail r ≠ "" →
      strContains (failMsg e r) (errorDetail r)) ∧
    (∀ (e : String) (r : HttpResponse), r.textBody = none →
      failMsg e r
        = e ++ " failed: " ++ toString r.status ++ " " ++ r.statusText) := by
  refine ⟨by simp [fetchTasks, hg], by simp [createTask, hc], ?_, ?_, ?_⟩
  · intro e r
    constructor
    · exact ⟨e ++ " failed: ",
        " " ++ r.statusText
          ++ (if errorDetail r = "" then "" else " - " ++ errorDetail r),
        by simp [failMsg, String.append_assoc]⟩
    · exact ⟨e ++ " failed: " ++ toString r.status ++ " ",
        (if errorDetail r = "" then "" else " - " ++ errorDetail r),
        by simp [failMsg, String.append_assoc]⟩
  · intro e r hd
    exact ⟨e ++ " failed: " ++ toString r.status ++ " " ++ r.statusText
        ++ " - ", "",
      by simp [failMsg, hd, String.append_assoc]⟩
  · intro e r hb
    simp [failMsg, errorDetail, hb]

/-- Witness for C3: a 500 `GetTasks` with body read failure and a 404
`CreateTask` with body "nope". -/
theorem client_error_carries_status_witness :
    fetchTasks ⟨⟨false, 500, "Internal Server Error", none⟩, []⟩
      = Except.error
          (failMsg "GetTasks" ⟨false, 500, "Internal Server Error", none⟩) ∧
    createTask ⟨"T", "", none, "", none⟩
        ⟨⟨false, 404, "Not Found", some "nope"⟩, ⟨0, "", "", none, "", none⟩⟩
      = Except.error (failMsg "CreateTask" ⟨false, 404, "Not Found", some "nope"⟩) :=
  ⟨(client_error_carries_status
      ⟨⟨false, 500, "Internal Server Error", none⟩, []⟩
      ⟨⟨false, 404, "Not Found", some "nope"⟩, ⟨0, "", "", none, "", none⟩⟩
      ⟨"T", "", none, "", none⟩ rfl rfl).1,
   (client_error_carries_status
      ⟨⟨false, 500, "Internal Server Error", none⟩, []⟩
      ⟨⟨false, 404, "Not Found", some "nope"⟩, ⟨0, "", "", none, "", none⟩⟩
      ⟨"T", "", none, "", none⟩ rfl rfl).2.1⟩

/-- Claim C6: a successful `fetchTasks` preserves length and order of the
wire array and, per element, leaves `Id`, `Title`, `Description`, `DueDate`
unchanged; `Priority`/`Status` become `some (wire value or 0)`, so a
present wire value passes through unchanged. -/
theorem fetchTasks_frame (res : GetTasksResponse) (h : res.ok = true) :
    ∃ tasks, fetchTasks res = Except.ok tasks ∧
      tasks.length = res.jsonBody.length ∧
      ∀ (i : Nat) (hi : i < res.jsonBody.length),
        ∃ hi2 : i < tasks.length,
          (tasks.get ⟨i, hi2⟩).Id = (res.jsonBody.get ⟨i, hi⟩).Id ∧
          (tasks.get ⟨i, hi2⟩).Title = (res.jsonBody.get ⟨i, hi⟩).Title ∧
          (tasks.get ⟨i, hi2⟩).Description
            = (res.jsonBody.get ⟨i, hi⟩).Description ∧
          (tasks.get ⟨i, hi2⟩).DueDate
            = (res.jsonBody.get ⟨i, hi⟩).DueDate ∧
          (tasks.get ⟨i, hi2⟩).Priority
            = some ((res.jsonBody.get ⟨i, hi⟩).Priority.getD 0) ∧
          (tasks.get ⟨i, hi2⟩).Status
            = some ((res.jsonBody.get ⟨i, hi⟩).Status.getD 0) ∧
          (∀ p, (res.jsonBody.get ⟨i, hi⟩).Priority = some p →
            (tasks.get ⟨i, hi2⟩).Priority = some p) ∧
          (∀ st, (res.jsonBody.get ⟨i, hi⟩).Status = some st →
            (tasks.get ⟨i, hi2⟩).Status = some st) := by
  have hok : fetchTasks res = Except.ok (res.jsonBody.map fun task =>
      { task with
        Priority := some (task.Priority.getD 0)
        Status := some (task.Status.getD 0) }) := by
    simp [fetchTasks, h]
  refine ⟨_, hok, by simp, ?_⟩
  intro i hi
  refine ⟨by simpa using hi, ?_⟩
  refine ⟨by simp [List.getElem_map], by simp [List.getElem_map],
    by simp [List.getElem_map], by simp [List.getElem_map],
    by simp [List.getElem_map], by simp [List.getElem_map], ?_, ?_⟩
  · intro p hp
    simp only [List.get_eq_getElem] at hp
    simp [List.getElem_map, hp]
  · intro st hs
    simp only [List.get_eq_getElem] at hs
    simp [List.getElem_map, hs]

/-- Witness for C6 on the "Buy milk" scenario response. -/
theorem fetchTasks_frame_witness :
    ∃ tasks,
      fetchTasks ⟨⟨true, 200, "OK", none⟩,
          [⟨1, "Buy milk", "", none, "2024-01-01T00:00:00Z", none⟩]⟩
        = Except.ok tasks ∧
      tasks.length = 1 ∧
      tasks = [⟨1, "Buy milk", "", some 0, "2024-01-01T00:00:00Z", some 0⟩] := by
  rcases fetchTasks_frame
      ⟨⟨true, 200, "OK", none⟩,
        [⟨1, "Buy milk", "", none, "2024-01-01T00:00:00Z", none⟩]⟩ rfl
    with ⟨tasks, hok, hlen, _⟩
  refine ⟨tasks, hok, by simpa using hlen, ?_⟩
  have : fetchTasks ⟨⟨true, 200, "OK", none⟩,
      [⟨1, "Buy milk", "", none, "2024-01-01T00:00:00Z", none⟩]⟩
      = Except.ok [⟨1, "Buy milk", "", some 0, "2024-01-01T00:00:00Z", some 0⟩] := by
    rfl
  rw [this] at hok
  exact (Except.ok.injEq _ _).mp hok.symm

/-- Claim C4: `add-task` builds a task with `Priority = 1`, `Status = 0`,
whose POST body wraps it under a `"Task"` key, then refetches; on success
the structured `tasks` is exactly the refetched list, and — when the
remote's refreshed array carries an element with the submitted title, as a
persisting service yields — the result contains a task with that title. -/
theorem addTask_success_refetch (inp : AddTaskInput)
    (createRes : CreateTaskResponse) (getRes : GetTasksResponse)
    (tasks : List Task) (w : Task)
    (hc : createRes.ok = true)
    (hf : fetchTasks getRes = Except.ok tasks)
    (hw : w ∈ getRes.jsonBody) (hT : w.Title = inp.Title) :
    (newTaskOf inp).Priority = some 1 ∧
    (newTaskOf inp).Status = some 0 ∧
    (newTaskOf inp).Title = inp.Title ∧
    (createTaskBody (newTaskOf inp)).lookupField "Task"
      = some (newTaskToJson (newTaskOf inp)) ∧
    (addTaskHandler inp createRes getRes).structuredContent
      = { tasks := tasks, error := none } ∧
    ∃ t ∈ tasks, t.Title = inp.Title := by
  refine ⟨rfl, rfl, rfl,
    by simp [createTaskBody, Json.lookupField, List.lookup], ?_, ?_⟩
  · simp [addTaskHandler, createTask, hc, hf]
  · have hmap : fetchTasks getRes = Except.ok (getRes.jsonBody.map fun task =>
        { task with
          Priority := some (task.Priority.getD 0)
          Status := some (task.Status.getD 0) }) := by
      by_cases hok : getRes.ok
      · simp [fetchTasks, hok]
      · simp [fetchTasks, hok] at hf
    rw [hmap] at hf
    have htasks := (Except.ok.injEq _ _).mp hf
    refine ⟨{ w with
        Priority := some (w.Priority.getD 0)
        Status := some (w.Status.getD 0) }, ?_, hT⟩
    rw [← htasks]
    exact List.mem_map.mpr ⟨w, hw, rfl⟩

/-- Witness for C4: submitting "Test" against a remote whose refreshed
list contains a "Test" task. -/
theorem addTask_success_refetch_witness :
    (addTaskHandler ⟨"Test", "", "2024-02-02T00:00:00Z"⟩
        ⟨⟨true, 200, "OK", none⟩,
          ⟨7, "Test", "", some 1, "2024-02-02T00:00:00Z", some 0⟩⟩
        ⟨⟨true, 200, "OK", none⟩,
          [⟨7, "Test", "", some 1, "2024-02-02T00:00:00Z", some 0⟩]⟩
      ).structuredContent
      = { tasks := [⟨7, "Test", "", some 1, "2024-02-02T00:00:00Z", some 0⟩],
          error := none } ∧
    ∃ t ∈ [(⟨7, "Test", "", some 1, "2024-02-02T00:00:00Z", some 0⟩ : Task)],
      t.Title = "Test" := by
  have h := addTask_success_refetch ⟨"Test", "", "2024-02-02T00:00:00Z"⟩
    ⟨⟨true, 200, "OK", none⟩,
      ⟨7, "Test", "", some 1, "2024-02-02T00:00:00Z", some 0⟩⟩
    ⟨⟨true, 200, "OK", none⟩,
      [⟨7, "Test", "", some 1, "2024-02-02T00:00:00Z", some 0⟩]⟩
    [⟨7, "Test", "", some 1, "2024-02-02T00:00:00Z", some 0⟩]
    ⟨7, "Test", "", some 1, "2024-02-02T00:00:00Z", some 0⟩
    rfl rfl (List.mem_singleton.mpr rfl) rfl
  exact ⟨h.2.2.2.2.1, h.2.2.2.2.2⟩

/-- Claim C5: when create succeeds but the refetch fails, `add-task`
returns `{tasks: [], error: msg}` — no partial task data — and the result
equals the one produced by any create failure with the same message, so
the two failure modes are indistinguishable in shape. -/
theorem addTask_refetch_failure (inp : AddTaskInput)
    (createRes : CreateTaskResponse) (getRes : GetTasksResponse)
    (msg : String)
    (hc : createRes.ok = true)
    (hf : fetchTasks getRes = Except.error msg) :
    addTaskHandler inp createRes getRes = toolErrorResult msg ∧
    (addTaskHandler inp createRes getRes).structuredContent.tasks = [] ∧
    (addTaskHandler inp createRes getRes).structuredContent.error
      = some msg ∧
    ∀ (createRes2 : CreateTaskResponse) (getRes2 : GetTasksResponse),
      createTask (newTaskOf inp) createRes2 = Except.error msg →
      addTaskHandler inp createRes2 getRes2
        = addTaskHandler inp createRes getRes := by
  have hmain : addTaskHandler inp createRes getRes = toolErrorResult msg := by
    simp [addTaskHandler, createTask, hc, hf]
  refine ⟨hmain, by rw [hmain]; rfl, by rw [hmain]; rfl, ?_⟩
  intro createRes2 getRes2 hc2
  rw [hmain]
  simp [addTaskHandler, hc2]

/-- Witness for C5: create returns 200 but the refetch hits a 500. -/
theorem addTask_refetch_failure_witness :
    addTaskHandler ⟨"Test", "", "2024-02-02T00:00:00Z"⟩
        ⟨⟨true, 200, "OK", none⟩,
          ⟨7, "Test", "", some 1, "2024-02-02T00:00:00Z", some 0⟩⟩
        ⟨⟨false, 500, "Internal Server Error", some "db down"⟩, []⟩
      = toolErrorResult
          "GetTasks failed: 500 Internal Server Error - db down" :=
  (addTask_refetch_failure ⟨"Test", "", "2024-02-02T00:00:00Z"⟩
    ⟨⟨true, 200, "OK", none⟩,
      ⟨7, "Test", "", some 1, "2024-02-02T00:00:00Z", some 0⟩⟩
    ⟨⟨false, 500, "Internal Server Error", some "db down"⟩, []⟩
    "GetTasks failed: 500 Internal Server Error - db down"
    rfl (by rfl)).1

/-- The count message as the spec words it: "`<n>` tasks shown". Stated
from the spec's words, for comparison with the source's `countMessage`. -/
def specCountMessage (n : Nat) : String :=
  toString n ++ " tasks shown"

/-- Counterexample to C8 as stated: on a successful `list-tasks` with two
tasks, the text content is the Japanese count sentence, not the literal
string "2 tasks shown". -/
theorem listTasks_count_text_counterexample :
    (listTasksHandler ⟨⟨true, 200, "OK", none⟩,
        [⟨1, "a", "", some 0, "", some 0⟩, ⟨2, "b", "", some 0, "", some 0⟩]⟩
      ).content
      ≠ [⟨"text", specCountMessage
            ((listTasksHandler ⟨⟨true, 200, "OK", none⟩,
                [⟨1, "a", "", some 0, "", some 0⟩,
                 ⟨2, "b", "", some 0, "", some 0⟩]⟩
              ).structuredContent.tasks.length)⟩] := by
  decide

/-- Claim C8 (amended): on every successful `list-tasks`, the text content
is the count message `` `${n} 件のタスクを UI に表示しました。` `` where `n`
is the number of tasks in the structured payload. -/
theorem listTasks_count_text (res : GetTasksResponse) (tasks : List Task)
    (h : fetchTasks res = Except.ok tasks) :
    (listTasksHandler res).content
      = [⟨"text", countMessage
            (listTasksHandler res).structuredContent.tasks.length⟩] ∧
    (listTasksHandler res).structuredContent.tasks = tasks := by
  constructor
  · simp [listTasksHandler, h]
  · simp [listTasksHandler, h]

/-- Witness for C8 at a concrete two-task response. -/
theorem listTasks_count_text_witness :
    (listTasksHandler ⟨⟨true, 200, "OK", none⟩,
        [⟨1, "a", "", some 0, "", some 0⟩, ⟨2, "b", "", some 0, "", some 0⟩]⟩
      ).content
      = [⟨"text", countMessage 2⟩] := by
  have h := listTasks_count_text
    ⟨⟨true, 200, "OK", none⟩,
      [⟨1, "a", "", some 0, "", some 0⟩, ⟨2, "b", "", some 0, "", some 0⟩]⟩
    [⟨1, "a", "", some 0, "", some 0⟩, ⟨2, "b", "", some 0, "", some 0⟩]
    (by rfl)
  rw [h.1, h.2]
  rfl

/-- Counterexample to C7 as stated: a result with `isError` unset and a
NON-null but EMPTY `error` string is claimed to display a status and leave
the list unchanged; the code's truthiness check sends it down the success
path instead — the list is replaced and no status is displayed. -/
theorem handleToolResult_nullcheck_counterexample :
    (UI.handleToolResult
        ⟨[], "0 件", "", false, "", "", ""⟩
        ⟨false, some ⟨some [⟨1, "a", "", 0, "", 0⟩], some ""⟩⟩
      ).renderedTasks
      ≠ (⟨[], "0 件", "", false, "", "", ""⟩ : UI.State).renderedTasks ∧
    (UI.handleToolResult
        ⟨[], "0 件", "", false, "", "", ""⟩
        ⟨false, some ⟨some [⟨1, "a", "", 0, "", 0⟩], some ""⟩⟩
      ).statusVisible = false := by
  decide

/-- Claim C7 (amended): on receiving a tool result, if `isError` is set or
the structured payload's `error` is a non-empty string (a truthy error;
`null` and `""` both count as no error), a status message is displayed and
the rendered list is unchanged; otherwise, if a task list is present, the
rendered list is fully replaced by it and the status banner is hidden. -/
theorem handleToolResult_renders (s : UI.State) (r : UI.ToolResult) :
    (r.isError = true →
      UI.handleToolResult s r = UI.showStatus s "エラーが発生しました" ∧
      (UI.handleToolResult s r).renderedTasks = s.renderedTasks ∧
      (UI.handleToolResult s r).statusVisible = true) ∧
    (∀ data e, r.isError = false → r.structuredContent = some data →
      data.error = some e → e ≠ "" →
      UI.handleToolResult s r = UI.showStatus s ("エラー: " ++ e) ∧
      (UI.handleToolResult s r).renderedTasks = s.renderedTasks ∧
      (UI.handleToolResult s r).statusVisible = true) ∧
    (∀ data tasks, r.isError = false → r.structuredContent = some data →
      UI.errTruthy data.error = false → data.tasks = some tasks →
      (UI.handleToolResult s r).renderedTasks = tasks ∧
      (UI.handleToolResult s r).statusVisible = false) := by
  refine ⟨?_, ?_, ?_⟩
  · intro hE
    refine ⟨by simp [UI.handleToolResult, hE], ?_, ?_⟩ <;>
      simp [UI.handleToolResult, hE, UI.showStatus]
  · intro data e hE hsc he hne
    have ht : UI.errTruthy (some e) = true := by
      simp [UI.errTruthy, hne]
    refine ⟨?_, ?_, ?_⟩ <;>
      simp [UI.handleToolResult, hE, hsc, he, ht, UI.showStatus]
  · intro data tasks hE hsc ht htk
    constructor <;>
      simp [UI.handleToolResult, hE, hsc, ht, htk, UI.renderTasks]

/-- Witness for C7 (amended): an `isError` result leaves a one-task list
standing and shows the status banner. -/
theorem handleToolResult_renders_witness :
    UI.handleToolResult ⟨[⟨1, "a", "", 0, "", 0⟩], "1 件", "", false, "", "", ""⟩
        ⟨true, none⟩
      = UI.showStatus ⟨[⟨1, "a", "", 0, "", 0⟩], "1 件", "", false, "", "", ""⟩
          "エラーが発生しました" ∧
    (UI.handleToolResult ⟨[⟨1, "a", "", 0, "", 0⟩], "1 件", "", false, "", "", ""⟩
        ⟨true, none⟩).renderedTasks = [⟨1, "a", "", 0, "", 0⟩] :=
  ⟨((handleToolResult_renders
      ⟨[⟨1, "a", "", 0, "", 0⟩], "1 件", "", false, "", "", ""⟩
      ⟨true, none⟩).1 rfl).1,
   ((handleToolResult_renders
      ⟨[⟨1, "a", "", 0, "", 0⟩], "1 件", "", false, "", "", ""⟩
      ⟨true, none⟩).1 rfl).2.1⟩

/-- Claim C9: a UI submission whose title is empty after trimming is a
complete no-op — the state is returned unchanged (inputs kept, status
untouched, list untouched) and no `add-task` invocation is made. -/
theorem addTask_blank_title_noop (isoOf : String → String) (now : String)
    (call : AddTaskInput → UI.CallOutcome) (s : UI.State)
    (h : UI.jsTrim s.titleValue = "") :
    UI.addTask isoOf now call s = (s, none) := by
  simp [UI.addTask, h]

/-- Witness for C9: a whitespace-only title. -/
theorem addTask_blank_title_noop_witness :
    UI.addTask (fun d => d) "2024-01-01T00:00:00Z"
        (fun _ => UI.CallOutcome.failure)
        ⟨[], "0 件", "", false, "   ", "desc", ""⟩
      = (⟨[], "0 件", "", false, "   ", "desc", ""⟩, none) :=
  addTask_blank_title_noop (fun d => d) "2024-01-01T00:00:00Z"
    (fun _ => UI.CallOutcome.failure)
    ⟨[], "0 件", "", false, "   ", "desc", ""⟩ (by decide)

/-- Claim C10: a tool result whose structured `error` is the empty string
(not null) is treated as a success by the UI: no error status is shown,
and when a tasks array is present the list is replaced and the banner
hidden; with no tasks array the state is untouched. -/
theorem emptystring_error_is_success (s : UI.State) (r : UI.ToolResult)
    (data : UI.TaskResult)
    (h1 : r.isError = false) (h2 : r.structuredContent = some data)
    (h3 : data.error = some "") :
    (∀ tasks, data.tasks = some tasks →
      (UI.handleToolResult s r).renderedTasks = tasks ∧
      (UI.handleToolResult s r).statusVisible = false ∧
      (UI.handleToolResult s r).statusText = s.statusText) ∧
    (data.tasks = none → UI.handleToolResult s r = s) := by
  have ht : UI.errTruthy data.error = false := by
    simp [UI.errTruthy, h3]
  constructor
  · intro tasks htk
    refine ⟨?_, ?_, ?_⟩ <;>
      simp [UI.handleToolResult, h1, h2, ht, htk, UI.renderTasks]
  · intro htk
    simp [UI.handleToolResult, h1, h2, ht, htk]

/-- Witness for C10: `{tasks: [one task], error: ""}` replaces the list and
shows no error. -/
theorem emptystring_error_is_success_witness :
    (UI.handleToolResult ⟨[], "0 件", "", false, "", "", ""⟩
        ⟨false, some ⟨some [⟨1, "a", "", 0, "", 0⟩], some ""⟩⟩
      ).renderedTasks = [⟨1, "a", "", 0, "", 0⟩] ∧
    (UI.handleToolResult ⟨[], "0 件", "", false, "", "", ""⟩
        ⟨false, some ⟨some [⟨1, "a", "", 0, "", 0⟩], some ""⟩⟩
      ).statusVisible = false :=
  ⟨((emptystring_error_is_success ⟨[], "0 件", "", false, "", "", ""⟩
      ⟨false, some ⟨some [⟨1, "a", "", 0, "", 0⟩], some ""⟩⟩
      ⟨some [⟨1, "a", "", 0, "", 0⟩], some ""⟩ rfl rfl rfl).1
      [⟨1, "a", "", 0, "", 0⟩] rfl).1,
   ((emptystring_error_is_success ⟨[], "0 件", "", false, "", "", ""⟩
      ⟨false, some ⟨some [⟨1, "a", "", 0, "", 0⟩], some ""⟩⟩
      ⟨some [⟨1, "a", "", 0, "", 0⟩], some ""⟩ rfl rfl rfl).1
      [⟨1, "a", "", 0, "", 0⟩] rfl).2.1⟩

end TaskApp
